import Mathlib

/-!
Verification of the kovuchatbot solana due-diligence pipeline
(`token_mapper.py`, `api_client.py`, `token_service.py`) against its
natural-language specification.

The embedding models Python JSON values (`JVal`), Python truthiness,
and Python attribute/key/type errors (`PyErr`) explicitly, so that the
exception behaviour of `dict.get` and subscription on non-dict values
is captured faithfully.  Remote calls are modelled by their outcomes
(`ReqOutcome`): either the request layer caught an exception and
returned `None` (`fail`), or a parsed JSON body was returned (`body`).
-/

namespace Kovu

/-- A Python/JSON value as handled by `json.load` / `response.json()`. -/
inductive JVal where
  | jnull : JVal
  | jbool : Bool → JVal
  | jnum : Int → JVal
  | jstr : String → JVal
  | jarr : List JVal → JVal
  | jobj : List (String × JVal) → JVal
deriving Repr

/-- Python truthiness of a JSON value (`bool(x)`). -/
def truthy : JVal → Bool
  | .jnull => false
  | .jbool b => b
  | .jnum n => !(n == 0)
  | .jstr s => !(s == "")
  | .jarr xs => !xs.isEmpty
  | .jobj fs => !fs.isEmpty

/-- Python truthiness of an optional value (`None` is falsy). -/
def optTruthy : Option JVal → Bool
  | none => false
  | some j => truthy j

/-- Python exceptions that the modelled code can raise. -/
inductive PyErr where
  | attributeError : PyErr
  | keyError : PyErr
  | typeError : PyErr
  | indexError : PyErr
deriving Repr, DecidableEq

/-- First binding of a key in an association list (dict lookup model). -/
def lookup (fs : List (String × JVal)) (k : String) : Option JVal :=
  (fs.find? (fun p => p.1 == k)).map (fun p => p.2)

/-- `x.get(k)`: returns the value or `None` on a dict, raises
`AttributeError` on any other value. -/
def JVal.get : JVal → String → Except PyErr (Option JVal)
  | .jobj fs, k => .ok (lookup fs k)
  | _, _ => .error .attributeError

/-- `x.get(k, d)`: dict get with an explicit default. -/
def JVal.getDefault : JVal → String → JVal → Except PyErr JVal
  | .jobj fs, k, d => .ok ((lookup fs k).getD d)
  | _, _, _ => .error .attributeError

/-- `x[k]` subscription with a string key: `KeyError` when missing,
`TypeError` on a non-dict. -/
def JVal.getItem : JVal → String → Except PyErr JVal
  | .jobj fs, k =>
    match lookup fs k with
    | some v => .ok v
    | none => .error .keyError
  | _, _ => .error .typeError

/-- `x[0]` subscription with index zero. -/
def JVal.index0 : JVal → Except PyErr JVal
  | .jarr (x :: _) => .ok x
  | .jarr [] => .error .indexError
  | .jstr s =>
    match s.toList with
    | c :: _ => .ok (.jstr c.toString)
    | [] => .error .indexError
  | .jobj _ => .error .keyError
  | _ => .error .typeError

/-- Outcome of one remote HTTP request as seen by callers of
`BirdeyeClient._request`: the request layer catches `HTTPError`,
`Timeout`, `RequestException` (which includes JSON decode failures of
the body) and returns `None`; otherwise the parsed JSON body comes
back. -/
inductive ReqOutcome where
  | fail : ReqOutcome
  | body : JVal → ReqOutcome
deriving Repr

/-- `BirdeyeClient._request`: `None` on any caught exception, else the
parsed body. -/
def request : ReqOutcome → Option JVal
  | .fail => none
  | .body j => some j

/-- The envelope check `x and x.get("success") and x.get("data")`
shared by `search_token` and `get_core_token_info`, evaluated with
Python short-circuiting; raises when `.get` is called on a truthy
non-dict. -/
def checkEnvelope : ReqOutcome → Except PyErr Bool
  | .fail => .ok false
  | .body j =>
    if truthy j then
      match j.get "success" with
      | .error e => .error e
      | .ok s =>
        if optTruthy s then
          match j.get "data" with
          | .error e => .error e
          | .ok d => .ok (optTruthy d)
        else .ok false
    else .ok false

/-- The parsing part of `BirdeyeClient.search_token` applied to the
result of `_request`. -/
def searchParse (response_data : Option JVal) : Except PyErr (Option JVal) :=
  match response_data with
  | none => .ok none
  | some rd =>
    if truthy rd then
      match rd.get "success" with
      | .error e => .error e
      | .ok s =>
        if optTruthy s then
          match rd.get "data" with
          | .error e => .error e
          | .ok d =>
            if optTruthy d then
              match rd.getItem "data" with
              | .error e => .error e
              | .ok dv =>
                match dv.get "items" with
                | .error e => .error e
                | .ok items =>
                  if optTruthy items then
                    match (items.getD .jnull).index0 with
                    | .error e => .error e
                    | .ok x => x.get "address"
                  else .ok none
            else .ok none
        else .ok none
    else .ok none

/-- `BirdeyeClient.search_token`: issues one `/defi/v3/search` request
with the given query and chain (the second component records the
issued calls as (query, chain) pairs) and parses the response. -/
def search_token (resp : ReqOutcome) (query chain : String) :
    Except PyErr (Option JVal) × List (String × String) :=
  (searchParse (request resp), [(query, chain)])

/-- Model of Python `str.lower()` (character-wise lowercasing). -/
def pyLower (s : String) : String := String.mk (s.data.map Char.toLower)

/-- The local-map scan of `TokenMapper.get_contract_address`: first
entry whose lowercased key equals the lowercased query, in table
iteration order. -/
def findLocal (local_map : List (String × JVal)) (query_lower : String) :
    Option JVal :=
  (local_map.find? (fun p => pyLower p.1 == query_lower)).map (fun p => p.2)

/-- `TokenMapper.get_contract_address`.  The second component is the
list of remote search calls issued, as (query, chain) pairs. -/
def get_contract_address (local_map : List (String × JVal)) (hasClient : Bool)
    (searchResp : ReqOutcome) (token_query : String) :
    Except PyErr (Option JVal) × List (String × String) :=
  let query_lower := pyLower token_query
  match findLocal local_map query_lower with
  | some address => (.ok (some address), [])
  | none =>
    if hasClient then
      match search_token searchResp query_lower "solana" with
      | (.ok address_from_api, calls) =>
        (if optTruthy address_from_api then .ok address_from_api else .ok none,
         calls)
      | (.error e, calls) => (.error e, calls)
    else (.ok none, [])

/-- Outcome of reading and parsing the bundled memecoin map file. -/
inductive LoadOutcome where
  | parsed : List (String × JVal) → LoadOutcome
  | missingFile : LoadOutcome
  | malformed : LoadOutcome
deriving Repr

/-- `TokenMapper.load_local_map`: the parsed object on success; the
`FileNotFoundError` and `json.JSONDecodeError` handlers both print a
warning and return an empty table. -/
def load_local_map : LoadOutcome → List (String × JVal)
  | .parsed m => m
  | .missingFile => []
  | .malformed => []

/-- The `get_nested` helper of `get_core_token_info`: walks the keys,
returning `None` as soon as the current value is not a dict holding
the key.  Total, never raises. -/
def get_nested : JVal → List String → Option JVal
  | j, [] => some j
  | j, k :: ks =>
    match j with
    | .jobj fs =>
      match lookup fs k with
      | some v => get_nested v ks
      | none => none
    | _ => none

/-- Storing an optional value in a Python dict: `None` becomes the
stored null value. -/
def pyNoneOr : Option JVal → JVal
  | none => .jnull
  | some v => v

/-- `price_data["data"]` / `overview_data["data"]` etc.: subscription
on the raw response (`TypeError` when the response was `None`). -/
def getData : ReqOutcome → Except PyErr JVal
  | .fail => .error .typeError
  | .body j => j.getItem "data"

/-- The `not (price_data and ... and overview_data and ...)` required
check of `get_core_token_info`, with Python short-circuiting: the
overview envelope is only inspected when the price envelope is
truthy. -/
def requiredCheck (p o : ReqOutcome) : Except PyErr Bool := do
  let pb ← checkEnvelope p
  if pb then checkEnvelope o else pure false

/-- Construction of the base `token_info` dict of
`get_core_token_info`, with values evaluated in Python dict-literal
order. -/
def baseProfile (contract_address : String)
    (price_info overview_info : JVal) :
    Except PyErr (List (String × JVal)) := do
  let name ← overview_info.get "name"
  let symbol ← overview_info.get "symbol"
  let price ← price_info.get "value"
  let logoURI ← overview_info.get "logoURI"
  let websiteLinks := get_nested overview_info ["links", "website"]
  let website ←
    if optTruthy websiteLinks then pure websiteLinks
    else overview_info.get "website"
  let twitter := get_nested overview_info ["links", "twitter"]
  let telegram := get_nested overview_info ["links", "telegram"]
  let marketCap ← overview_info.get "mc"
  let totalSupply ← overview_info.get "totalSupply"
  let circulatingSupply ← overview_info.get "circulatingSupply"
  let extensions ← overview_info.get "extensions"
  pure [("name", pyNoneOr name), ("symbol", pyNoneOr symbol),
    ("price", pyNoneOr price), ("logoURI", pyNoneOr logoURI),
    ("website", pyNoneOr website), ("twitter", pyNoneOr twitter),
    ("telegram", pyNoneOr telegram), ("marketCap", pyNoneOr marketCap),
    ("totalSupply", pyNoneOr totalSupply),
    ("circulatingSupply", pyNoneOr circulatingSupply),
    ("explorerURL", .jstr ("https://solscan.io/token/" ++ contract_address)),
    ("extensions", pyNoneOr extensions)]

/-- The security block of `get_core_token_info`: on a truthy envelope,
append the seven projected security fields; otherwise only a warning
is printed. -/
def securitySection (token_info : List (String × JVal)) (s : ReqOutcome) :
    Except PyErr (List (String × JVal)) := do
  let chk ← checkEnvelope s
  if chk then do
    let sec_data ← getData s
    let creatorAddress ← sec_data.get "creatorAddress"
    let ownerAddress ← sec_data.get "ownerAddress"
    let isMutable ← sec_data.get "isMutable"
    let isVerified ← sec_data.get "isVerified"
    let isHoneypot ← sec_data.get "isHoneypot"
    let lpLock ← sec_data.get "lpLock"
    let top10 ← sec_data.get "top10HolderPercent"
    pure (token_info ++
      [("creatorAddress", pyNoneOr creatorAddress),
       ("ownerAddress", pyNoneOr ownerAddress),
       ("isMutable", pyNoneOr isMutable),
       ("isVerified", pyNoneOr isVerified),
       ("isHoneypot", pyNoneOr isHoneypot),
       ("lpLock", pyNoneOr lpLock),
       ("top10HolderPercent", pyNoneOr top10)])
  else pure token_info

/-- One element of the holder comprehension:
`{"address": h.get("owner"), "percentage": h.get("percentage")}`. -/
def projectHolder (h : JVal) : Except PyErr JVal := do
  let owner ← h.get "owner"
  let percentage ← h.get "percentage"
  pure (.jobj [("address", pyNoneOr owner),
               ("percentage", pyNoneOr percentage)])

/-- The holder list comprehension, evaluated left to right with the
first raised exception propagating. -/
def projectHolders : List JVal → Except PyErr (List JVal)
  | [] => .ok []
  | x :: xs => do
    let y ← projectHolder x
    let ys ← projectHolders xs
    pure (y :: ys)

/-- `holders[:5]`: slicing works on lists and strings, raises
`TypeError` elsewhere. -/
def sliceTake5 : JVal → Except PyErr (List JVal)
  | .jarr xs => .ok (xs.take 5)
  | .jstr s => .ok ((s.toList.take 5).map (fun c => JVal.jstr c.toString))
  | _ => .error .typeError

/-- The holder block of `get_core_token_info`: on a truthy envelope,
append `topHolders` built from the first five entries of
`data.get("holders", [])`; otherwise only a warning is printed. -/
def holdersSection (token_info : List (String × JVal)) (h : ReqOutcome) :
    Except PyErr (List (String × JVal)) := do
  let chk ← checkEnvelope h
  if chk then do
    let dataVal ← getData h
    let holders ← dataVal.getDefault "holders" (.jarr [])
    let firstFive ← sliceTake5 holders
    let top ← projectHolders firstFive
    pure (token_info ++ [("topHolders", .jarr top)])
  else pure token_info

/-- `TokenDataService.get_core_token_info`, parameterised by the four
remote-call outcomes.  `hasClient = false` models a service
constructed without a Birdeye client (early `return None`). -/
def get_core_token_info (hasClient : Bool) (contract_address : String)
    (p o s h : ReqOutcome) :
    Except PyErr (Option (List (String × JVal))) :=
  if hasClient then do
    let ok ← requiredCheck p o
    if ok then do
      let price_info ← getData p
      let overview_info ← getData o
      let base ← baseProfile contract_address price_info overview_info
      let withSec ← securitySection base s
      let withHolders ← holdersSection withSec h
      pure (some withHolders)
    else pure none
  else .ok none

/-! Spec-side helper definitions used to state the claims. -/

/-- Total dict lookup: `None` on a non-dict. -/
def jGetO : JVal → String → Option JVal
  | .jobj fs, k => lookup fs k
  | _, _ => none

/-- Whether a value is a JSON object. -/
def isObj : JVal → Bool
  | .jobj _ => true
  | _ => false

/-- The data section of a response body, for statement purposes. -/
def dataOf : ReqOutcome → JVal
  | .body (.jobj fs) => (lookup fs "data").getD .jnull
  | _ => .jnull

/-- The field list of an object value. -/
def objFields : JVal → List (String × JVal)
  | .jobj fs => fs
  | _ => []

/-- The website value the merged profile stores: the `links.website`
value when truthy, else the top-level `website` field. -/
def websitePick (ov : JVal) : Option JVal :=
  let l := get_nested ov ["links", "website"]
  if optTruthy l then l else jGetO ov "website"

/-- The claimed projection of one holder record. -/
def projectHolderSpec (x : JVal) : JVal :=
  .jobj [("address", pyNoneOr (jGetO x "owner")),
         ("percentage", pyNoneOr (jGetO x "percentage"))]

/-- The address the resolver spec predicts for a remote search
response: the `address` field of the first item of a successful
response, `None` otherwise. -/
def specSearchAddress : ReqOutcome → Option JVal
  | .fail => none
  | .body j =>
    match j with
    | .jobj fs =>
      if optTruthy (lookup fs "success") then
        match lookup fs "data" with
        | some (.jobj ds) =>
          match lookup ds "items" with
          | some (.jarr (x :: _)) =>
            match x with
            | .jobj xs => lookup xs "address"
            | _ => none
          | _ => none
        | _ => none
      else none
    | _ => none

/-- A search response body shaped so that parsing it cannot raise:
either the envelope check short-circuits to a falsy value, or the data
section is an object whose truthy `items` value is a list headed by an
object. -/
def searchSafe : ReqOutcome → Bool
  | .fail => true
  | .body j =>
    match j with
    | .jobj fs =>
      if optTruthy (lookup fs "success") then
        match lookup fs "data" with
        | none => true
        | some d =>
          if truthy d then
            match d with
            | .jobj ds =>
              match lookup ds "items" with
              | none => true
              | some it =>
                if truthy it then
                  match it with
                  | .jarr (x :: _) => isObj x
                  | _ => false
                else true
            | _ => false
          else true
      else true
    | _ => !truthy j

/-- A response body whose envelope check and (when reached) data
projection cannot raise: required for the price, overview and security
calls of the aggregator. -/
def callSafe : ReqOutcome → Bool
  | .fail => true
  | .body j =>
    match j with
    | .jobj fs =>
      if optTruthy (lookup fs "success") then
        match lookup fs "data" with
        | none => true
        | some d => if truthy d then isObj d else true
      else true
    | _ => !truthy j

/-- A successful required-call response: truthy `success` and a
non-empty object data section. -/
def requiredGood : ReqOutcome → Bool
  | .body (.jobj fs) =>
    optTruthy (lookup fs "success") &&
    (match lookup fs "data" with
     | some (.jobj ds) => !ds.isEmpty
     | _ => false)
  | _ => false

/-- The holder list carried by a well-shaped successful holders
response: `some hs` when the envelope is truthy, the data section is a
non-empty object, and its `holders` entry is absent (modelling the
`[]` default) or a list whose first five entries are objects. -/
def goodHolders : ReqOutcome → Option (List JVal)
  | .body (.jobj fs) =>
    if optTruthy (lookup fs "success") then
      match lookup fs "data" with
      | some (.jobj ds) =>
        if ds.isEmpty then none
        else
          match lookup ds "holders" with
          | none => some []
          | some (.jarr hs) =>
            if (hs.take 5).all isObj then some hs else none
          | some _ => none
      | _ => none
    else none
  | _ => none

/-- A holders response whose processing cannot raise. -/
def holdersSafe : ReqOutcome → Bool
  | .fail => true
  | .body j =>
    match j with
    | .jobj fs =>
      if optTruthy (lookup fs "success") then
        match lookup fs "data" with
        | none => true
        | some d =>
          if truthy d then
            match d with
            | .jobj ds =>
              match lookup ds "holders" with
              | none => true
              | some (.jarr hs) => (hs.take 5).all isObj
              | some _ => false
            | _ => false
          else true
      else true
    | _ => !truthy j

/-- Lookup of a profile field in an aggregation result; `None` when no
profile was produced. -/
def profLookup (r : Except PyErr (Option (List (String × JVal))))
    (k : String) : Option JVal :=
  match r with
  | .ok (some prof) => lookup prof k
  | _ => none

/-- Whether an aggregation result is a profile (as opposed to `None`
or a raised exception). -/
def isOkProfile : Except PyErr (Option (List (String × JVal))) → Bool
  | .ok (some _) => true
  | _ => false

/-- Whether a computation returned a value rather than raising. -/
def isOk {α : Type} : Except PyErr α → Bool
  | .ok _ => true
  | .error _ => false

/-- Placeholder credential used by `BirdeyeClient.__init__` when
nothing else is configured. -/
def placeholder_key : String := "YOUR_BIRDEYE_API_KEY"

/-- Python truthiness of an optional string argument. -/
def strTruthy : Option String → Bool
  | none => false
  | some s => !(s == "")

/-- `BirdeyeClient.__init__` credential selection:
`api_key or os.environ.get("BIRDEYE_API_KEY", "YOUR_BIRDEYE_API_KEY")`. -/
def init_api_key (api_key : Option String) (envKey : Option String) : String :=
  if strTruthy api_key then api_key.getD "" else envKey.getD placeholder_key

/-- The constructor warns exactly when the selected credential is the
placeholder sentinel. -/
def placeholder_warning (k : String) : Bool := k == placeholder_key

/-- The base profile dict produced by a successful required merge,
expressed through total lookups on the two data sections. -/
def baseList (a : String) (pfs ofs : List (String × JVal)) :
    List (String × JVal) :=
  [("name", pyNoneOr (lookup ofs "name")),
   ("symbol", pyNoneOr (lookup ofs "symbol")),
   ("price", pyNoneOr (lookup pfs "value")),
   ("logoURI", pyNoneOr (lookup ofs "logoURI")),
   ("website", pyNoneOr (websitePick (.jobj ofs))),
   ("twitter", pyNoneOr (get_nested (.jobj ofs) ["links", "twitter"])),
   ("telegram", pyNoneOr (get_nested (.jobj ofs) ["links", "telegram"])),
   ("marketCap", pyNoneOr (lookup ofs "mc")),
   ("totalSupply", pyNoneOr (lookup ofs "totalSupply")),
   ("circulatingSupply", pyNoneOr (lookup ofs "circulatingSupply")),
   ("explorerURL", .jstr ("https://solscan.io/token/" ++ a)),
   ("extensions", pyNoneOr (lookup ofs "extensions"))]

/-- The seven fields appended by a successful security merge. -/
def secList (ss : List (String × JVal)) : List (String × JVal) :=
  [("creatorAddress", pyNoneOr (lookup ss "creatorAddress")),
   ("ownerAddress", pyNoneOr (lookup ss "ownerAddress")),
   ("isMutable", pyNoneOr (lookup ss "isMutable")),
   ("isVerified", pyNoneOr (lookup ss "isVerified")),
   ("isHoneypot", pyNoneOr (lookup ss "isHoneypot")),
   ("lpLock", pyNoneOr (lookup ss "lpLock")),
   ("top10HolderPercent", pyNoneOr (lookup ss "top10HolderPercent"))]

/-! Reduction lemmas for the `Except` monad and association lists. -/

theorem ebind_ok {α β : Type} (a : α) (f : α → Except PyErr β) :
    Bind.bind (Except.ok a : Except PyErr α) f = f a := rfl

theorem ebind_error {α β : Type} (e : PyErr) (f : α → Except PyErr β) :
    Bind.bind (Except.error e : Except PyErr α) f = Except.error e := rfl

theorem epure {α : Type} (a : α) : (pure a : Except PyErr α) = Except.ok a := rfl

theorem lookup_nil (k : String) : lookup [] k = none := rfl

theorem lookup_cons (a : String) (v : JVal) (l : List (String × JVal))
    (k : String) :
    lookup ((a, v) :: l) k = if (a == k) then some v else lookup l k := by
  by_cases h : a == k <;> simp [lookup, List.find?, h]

theorem lookup_append (l1 l2 : List (String × JVal)) (k : String) :
    lookup (l1 ++ l2) k =
      match lookup l1 k with
      | some v => some v
      | none => lookup l2 k := by
  induction l1 with
  | nil => simp [lookup_nil]
  | cons p l ih =>
    obtain ⟨a, v⟩ := p
    by_cases h : a == k <;> simp [lookup_cons, h, ih]

theorem lookup_isSome_ne_nil (fs : List (String × JVal)) (k : String)
    (v : JVal) (h : lookup fs k = some v) : fs.isEmpty = false := by
  cases fs with
  | nil => simp [lookup_nil] at h
  | cons p l => rfl

/-! Case-analysis lemmas for the response-shape predicates. -/

theorem truthy_jobj (fs : List (String × JVal)) :
    truthy (.jobj fs) = !fs.isEmpty := rfl

theorem requiredGood_spec (o : ReqOutcome) (h : requiredGood o = true) :
    checkEnvelope o = .ok true ∧ getData o = .ok (dataOf o) ∧
      isObj (dataOf o) = true ∧ truthy (dataOf o) = true := by
  cases o with
  | fail => simp [requiredGood] at h
  | body j =>
    cases j with
    | jnull => simp [requiredGood] at h
    | jbool b => simp [requiredGood] at h
    | jnum n => simp [requiredGood] at h
    | jstr s => simp [requiredGood] at h
    | jarr xs => simp [requiredGood] at h
    | jobj fs =>
      simp only [requiredGood, Bool.and_eq_true] at h
      obtain ⟨hsucc, hdata⟩ := h
      cases hs : lookup fs "success" with
      | none => rw [hs] at hsucc; simp [optTruthy] at hsucc
      | some sv =>
        have hne : fs.isEmpty = false := lookup_isSome_ne_nil fs _ _ hs
        rw [hs] at hsucc
        simp only [optTruthy] at hsucc
        split at hdata
        case h_2 => simp at hdata
        case h_1 ds heq =>
          refine ⟨?_, ?_, ?_, ?_⟩ <;>
            simp [checkEnvelope, getData, dataOf, JVal.get, JVal.getItem,
              isObj, optTruthy, truthy_jobj, heq, hs, hsucc, hne, hdata]

theorem optTruthy_none : optTruthy none = false := rfl

theorem optTruthy_some (j : JVal) : optTruthy (some j) = truthy j := rfl

theorem callSafe_cases (s : ReqOutcome) (h : callSafe s = true) :
    checkEnvelope s = .ok false ∨
      (checkEnvelope s = .ok true ∧ requiredGood s = true) := by
  cases s with
  | fail => exact Or.inl rfl
  | body j =>
    cases j with
    | jnull => exact Or.inl rfl
    | jbool b =>
      left; simp [callSafe, truthy] at h; subst h; rfl
    | jnum n =>
      left; simp [callSafe, truthy] at h; subst h; rfl
    | jstr s =>
      left; simp [callSafe, truthy] at h; subst h; rfl
    | jarr xs =>
      left; simp [callSafe, truthy] at h; subst h; rfl
    | jobj fs =>
      by_cases hne : fs.isEmpty
      · left; simp [checkEnvelope, truthy_jobj, hne]
      · simp only [callSafe] at h
        by_cases hsucc : optTruthy (lookup fs "success") = true
        · rw [if_pos hsucc] at h
          cases hd : lookup fs "data" with
          | none =>
            left
            simp [checkEnvelope, truthy_jobj, hne, JVal.get, optTruthy_none,
              optTruthy_some, hsucc, hd]
          | some d =>
            simp only [hd] at h
            by_cases htd : truthy d = true
            · rw [if_pos htd] at h
              cases d with
              | jobj ds =>
                right
                refine ⟨?_, ?_⟩
                · simp [checkEnvelope, truthy_jobj, hne, JVal.get,
                    optTruthy_none, optTruthy_some, hsucc, hd, htd]
                · simp only [requiredGood, Bool.and_eq_true, hd]
                  exact ⟨hsucc, by simpa [truthy_jobj] using htd⟩
              | jnull => simp [isObj] at h
              | jbool b => simp [isObj] at h
              | jnum n => simp [isObj] at h
              | jstr s => simp [isObj] at h
              | jarr xs => simp [isObj] at h
            · rw [Bool.not_eq_true] at htd
              left
              simp [checkEnvelope, truthy_jobj, hne, JVal.get,
                optTruthy_none, optTruthy_some, hsucc, hd, htd]
        · rw [Bool.not_eq_true] at hsucc
          left
          simp [checkEnvelope, truthy_jobj, hne, JVal.get, optTruthy_none,
            optTruthy_some, hsucc]

theorem optTruthy_lookup_ne_nil (fs : List (String × JVal)) (k : String)
    (h : optTruthy (lookup fs k) = true) : fs.isEmpty = false := by
  cases hl : lookup fs k with
  | none => rw [hl] at h; simp [optTruthy_none] at h
  | some v => exact lookup_isSome_ne_nil fs k v hl

theorem checkEnvelope_true_of (fs : List (String × JVal)) (d : JVal)
    (hsucc : optTruthy (lookup fs "success") = true)
    (hd : lookup fs "data" = some d) (htd : truthy d = true) :
    checkEnvelope (.body (.jobj fs)) = .ok true := by
  have hne := optTruthy_lookup_ne_nil fs "success" hsucc
  simp [checkEnvelope, truthy_jobj, hne, JVal.get, optTruthy_some, hsucc,
    hd, htd]

theorem getData_of (fs : List (String × JVal)) (d : JVal)
    (hd : lookup fs "data" = some d) :
    getData (.body (.jobj fs)) = .ok d := by
  simp [getData, JVal.getItem, hd]

theorem securitySection_skip (ti : List (String × JVal)) (s : ReqOutcome)
    (h : checkEnvelope s = .ok false) : securitySection ti s = .ok ti := by
  simp [securitySection, h, ebind_ok, epure]

theorem securitySection_good (ti : List (String × JVal)) (s : ReqOutcome)
    (ss : List (String × JVal)) (h1 : checkEnvelope s = .ok true)
    (h2 : getData s = .ok (.jobj ss)) :
    securitySection ti s = .ok (ti ++ secList ss) := by
  simp [securitySection, h1, h2, ebind_ok, epure, JVal.get, secList]

theorem holdersSection_skip (ti : List (String × JVal)) (h0 : ReqOutcome)
    (h : checkEnvelope h0 = .ok false) : holdersSection ti h0 = .ok ti := by
  simp [holdersSection, h, ebind_ok, epure]

theorem projectHolders_all_obj (l : List JVal) (h : l.all isObj = true) :
    projectHolders l = .ok (l.map projectHolderSpec) := by
  induction l with
  | nil => rfl
  | cons x xs ih =>
    simp only [List.all_cons, Bool.and_eq_true] at h
    obtain ⟨hx, hxs⟩ := h
    cases x with
    | jobj fs =>
      simp [projectHolders, projectHolder, JVal.get, projectHolderSpec,
        jGetO, ebind_ok, epure, ih hxs]
    | jnull => simp [isObj] at hx
    | jbool b => simp [isObj] at hx
    | jnum n => simp [isObj] at hx
    | jstr s => simp [isObj] at hx
    | jarr xs2 => simp [isObj] at hx

theorem goodHolders_spec (h : ReqOutcome) (hs : List JVal)
    (hg : goodHolders h = some hs) :
    checkEnvelope h = .ok true ∧
      ∀ ti, holdersSection ti h =
        .ok (ti ++ [("topHolders",
          .jarr ((hs.take 5).map projectHolderSpec))]) := by
  cases h with
  | fail => simp [goodHolders] at hg
  | body j =>
    cases j with
    | jnull => simp [goodHolders] at hg
    | jbool b => simp [goodHolders] at hg
    | jnum n => simp [goodHolders] at hg
    | jstr s => simp [goodHolders] at hg
    | jarr xs => simp [goodHolders] at hg
    | jobj fs =>
      simp only [goodHolders] at hg
      split at hg
      case isFalse => simp at hg
      case isTrue hsucc =>
        split at hg
        case h_2 => simp at hg
        case h_1 ds heq =>
          split at hg
          case isTrue => simp at hg
          case isFalse hdsne =>
            rw [Bool.not_eq_true] at hdsne
            have htd : truthy (JVal.jobj ds) = true := by
              simp [truthy_jobj, hdsne]
            have henv := checkEnvelope_true_of fs (.jobj ds) hsucc heq htd
            have hgd := getData_of fs (.jobj ds) heq
            refine ⟨henv, fun ti => ?_⟩
            split at hg
            case h_1 hh =>
              obtain rfl : ([] : List JVal) = hs := by
                simpa using hg
              simp [holdersSection, henv, hgd, ebind_ok, epure,
                JVal.getDefault, hh, sliceTake5, projectHolders]
            case h_2 hs2 hh =>
              split at hg
              case isFalse => simp at hg
              case isTrue hall =>
                obtain rfl : hs2 = hs := by simpa using hg
                simp [holdersSection, henv, hgd, ebind_ok, epure,
                  JVal.getDefault, hh, sliceTake5,
                  projectHolders_all_obj _ hall]
            case h_3 => simp at hg

theorem holdersSafe_cases (h : ReqOutcome) (hsafe : holdersSafe h = true) :
    checkEnvelope h = .ok false ∨ ∃ hs, goodHolders h = some hs := by
  cases h with
  | fail => exact Or.inl rfl
  | body j =>
    cases j with
    | jnull => exact Or.inl rfl
    | jbool b =>
      left; simp [holdersSafe, truthy] at hsafe; subst hsafe; rfl
    | jnum n =>
      left; simp [holdersSafe, truthy] at hsafe; subst hsafe; rfl
    | jstr s =>
      left; simp [holdersSafe, truthy] at hsafe; subst hsafe; rfl
    | jarr xs =>
      left; simp [holdersSafe, truthy] at hsafe; subst hsafe; rfl
    | jobj fs =>
      by_cases hne : fs.isEmpty
      · left; simp [checkEnvelope, truthy_jobj, hne]
      · simp only [holdersSafe] at hsafe
        by_cases hsucc : optTruthy (lookup fs "success") = true
        · rw [if_pos hsucc] at hsafe
          cases hd : lookup fs "data" with
          | none =>
            left
            simp [checkEnvelope, truthy_jobj, hne, JVal.get, optTruthy_none,
              optTruthy_some, hsucc, hd]
          | some d =>
            simp only [hd] at hsafe
            by_cases htd : truthy d = true
            · rw [if_pos htd] at hsafe
              cases d with
              | jobj ds =>
                right
                simp only [] at hsafe
                have hdsne : ds.isEmpty = false := by
                  simpa [truthy_jobj] using htd
                cases hh : lookup ds "holders" with
                | none =>
                  exact ⟨[], by simp [goodHolders, hsucc, hd, hdsne, hh]⟩
                | some hv =>
                  rw [hh] at hsafe
                  cases hv with
                  | jarr hs =>
                    simp only [] at hsafe
                    exact ⟨hs, by
                      simp [goodHolders, hsucc, hd, hdsne, hh, hsafe]⟩
                  | jnull => simp at hsafe
                  | jbool b => simp at hsafe
                  | jnum n => simp at hsafe
                  | jstr s => simp at hsafe
                  | jobj gs => simp at hsafe
              | jnull => simp [truthy] at htd
              | jbool b => simp at hsafe
              | jnum n => simp at hsafe
              | jstr s => simp at hsafe
              | jarr xs => simp at hsafe
            · rw [Bool.not_eq_true] at htd
              left
              simp [checkEnvelope, truthy_jobj, hne, JVal.get,
                optTruthy_none, optTruthy_some, hsucc, hd, htd]
        · rw [Bool.not_eq_true] at hsucc
          left
          simp [checkEnvelope, truthy_jobj, hne, JVal.get, optTruthy_none,
            optTruthy_some, hsucc]

theorem isObj_exists (v : JVal) (h : isObj v = true) :
    ∃ fs, v = .jobj fs := by
  cases v with
  | jobj fs => exact ⟨fs, rfl⟩
  | jnull => simp [isObj] at h
  | jbool b => simp [isObj] at h
  | jnum n => simp [isObj] at h
  | jstr s => simp [isObj] at h
  | jarr xs => simp [isObj] at h

theorem baseProfile_eval (a : String) (pfs ofs : List (String × JVal)) :
    baseProfile a (.jobj pfs) (.jobj ofs) = .ok (baseList a pfs ofs) := by
  by_cases hw : optTruthy (get_nested (.jobj ofs) ["links", "website"]) = true
  · simp [baseProfile, JVal.get, ebind_ok, epure, baseList, websitePick,
      jGetO, hw]
  · rw [Bool.not_eq_true] at hw
    simp [baseProfile, JVal.get, ebind_ok, epure, baseList, websitePick,
      jGetO, hw]

theorem core_unfold (a : String) (p o s h : ReqOutcome)
    (hp : requiredGood p = true) (ho : requiredGood o = true) :
    get_core_token_info true a p o s h =
      Bind.bind (securitySection (baseList a (objFields (dataOf p))
          (objFields (dataOf o))) s)
        (fun withSec => Bind.bind (holdersSection withSec h)
          (fun wh => pure (some wh))) := by
  obtain ⟨hpe, hpd, hpo, _⟩ := requiredGood_spec p hp
  obtain ⟨hoe, hod, hoo, _⟩ := requiredGood_spec o ho
  obtain ⟨pfs, hpfs⟩ := isObj_exists _ hpo
  obtain ⟨ofs, hofs⟩ := isObj_exists _ hoo
  rw [hpfs] at hpd
  rw [hofs] at hod
  have hchk : requiredCheck p o = .ok true := by
    simp [requiredCheck, hpe, hoe, ebind_ok]
  simp [get_core_token_info, hchk, ebind_ok, hpd, hod, hpfs, hofs,
    objFields, baseProfile_eval, epure]

theorem baseList_lookup_topHolders (a : String)
    (pfs ofs : List (String × JVal)) :
    lookup (baseList a pfs ofs) "topHolders" = none := rfl

theorem secList_lookup_topHolders (ss : List (String × JVal)) :
    lookup (secList ss) "topHolders" = none := rfl

theorem baseList_lookup_website (a : String)
    (pfs ofs : List (String × JVal)) :
    lookup (baseList a pfs ofs) "website" =
      some (pyNoneOr (websitePick (.jobj ofs))) := rfl

theorem baseList_lookup_twitter (a : String)
    (pfs ofs : List (String × JVal)) :
    lookup (baseList a pfs ofs) "twitter" =
      some (pyNoneOr (get_nested (.jobj ofs) ["links", "twitter"])) := rfl

theorem baseList_lookup_telegram (a : String)
    (pfs ofs : List (String × JVal)) :
    lookup (baseList a pfs ofs) "telegram" =
      some (pyNoneOr (get_nested (.jobj ofs) ["links", "telegram"])) := rfl

theorem core_cases (a : String) (p o s h : ReqOutcome)
    (hp : requiredGood p = true) (ho : requiredGood o = true)
    (hsec : callSafe s = true) :
    ∃ pre : List (String × JVal),
      lookup pre "topHolders" = none ∧
      (∀ k v, lookup (baseList a (objFields (dataOf p))
          (objFields (dataOf o))) k = some v → lookup pre k = some v) ∧
      (checkEnvelope h = .ok false →
        get_core_token_info true a p o s h = .ok (some pre)) ∧
      (∀ hs, goodHolders h = some hs →
        get_core_token_info true a p o s h =
          .ok (some (pre ++ [("topHolders",
            .jarr ((hs.take 5).map projectHolderSpec))]))) := by
  rw [core_unfold a p o s h hp ho]
  rcases callSafe_cases s hsec with hse | ⟨hse, hsg⟩
  · refine ⟨baseList a (objFields (dataOf p)) (objFields (dataOf o)),
      baseList_lookup_topHolders a _ _, fun k v hv => hv, fun hhe => ?_,
      fun hs hg => ?_⟩
    · rw [securitySection_skip _ _ hse, ebind_ok,
        holdersSection_skip _ _ hhe, ebind_ok, epure]
    · obtain ⟨henv, hsec2⟩ := goodHolders_spec h hs hg
      rw [securitySection_skip _ _ hse, ebind_ok, hsec2, ebind_ok, epure]
  · obtain ⟨_, hsd, hso, _⟩ := requiredGood_spec s hsg
    obtain ⟨ss, hss⟩ := isObj_exists _ hso
    rw [hss] at hsd
    refine ⟨baseList a (objFields (dataOf p)) (objFields (dataOf o)) ++
      secList ss, ?_, fun k v hv => ?_, fun hhe => ?_, fun hs hg => ?_⟩
    · simp [lookup_append, baseList_lookup_topHolders,
        secList_lookup_topHolders]
    · simp [lookup_append, hv]
    · rw [securitySection_good _ _ ss hse hsd, ebind_ok,
        holdersSection_skip _ _ hhe, ebind_ok, epure]
    · obtain ⟨henv, hsec2⟩ := goodHolders_spec h hs hg
      rw [securitySection_good _ _ ss hse hsd, ebind_ok, hsec2, ebind_ok,
        epure]

theorem searchParse_safe (r : ReqOutcome) (hsafe : searchSafe r = true) :
    searchParse (request r) = .ok (specSearchAddress r) := by
  cases r with
  | fail => rfl
  | body j =>
    cases j with
    | jnull => rfl
    | jbool b =>
      simp [searchSafe, truthy] at hsafe; subst hsafe; rfl
    | jnum n =>
      simp [searchSafe, truthy] at hsafe; subst hsafe; rfl
    | jstr s =>
      simp [searchSafe, truthy] at hsafe; subst hsafe; rfl
    | jarr xs =>
      simp [searchSafe, truthy] at hsafe; subst hsafe; rfl
    | jobj fs =>
      by_cases hne : fs.isEmpty
      · rw [List.isEmpty_iff] at hne
        subst hne
        rfl
      · simp only [searchSafe] at hsafe
        by_cases hsucc : optTruthy (lookup fs "success") = true
        · rw [if_pos hsucc] at hsafe
          cases hd : lookup fs "data" with
          | none =>
            simp [searchParse, request, specSearchAddress, truthy_jobj, hne,
              JVal.get, optTruthy_none, optTruthy_some, hsucc, hd]
          | some d =>
            simp only [hd] at hsafe
            by_cases htd : truthy d = true
            · rw [if_pos htd] at hsafe
              cases d with
              | jobj ds =>
                simp only [] at hsafe
                cases hit : lookup ds "items" with
                | none =>
                  simp [searchParse, request, specSearchAddress,
                    truthy_jobj, hne, JVal.get, JVal.getItem,
                    optTruthy_none, optTruthy_some, hsucc, hd, htd, hit]
                | some it =>
                  simp only [hit] at hsafe
                  by_cases hti : truthy it = true
                  · rw [if_pos hti] at hsafe
                    cases it with
                    | jarr xs =>
                      cases xs with
                      | nil => simp [truthy] at hti
                      | cons x rest =>
                        simp only [] at hsafe
                        obtain ⟨xfs, hx⟩ := isObj_exists x hsafe
                        subst hx
                        simp [searchParse, request, specSearchAddress,
                          truthy_jobj, hne, JVal.get, JVal.getItem,
                          JVal.index0, optTruthy_none, optTruthy_some,
                          hsucc, hd, htd, hit, hti]
                    | jnull => simp at hsafe
                    | jbool b => simp at hsafe
                    | jnum n => simp at hsafe
                    | jstr s => simp at hsafe
                    | jobj gs => simp at hsafe
                  · rw [Bool.not_eq_true] at hti
                    cases it with
                    | jarr xs =>
                      have hxs : xs = [] := by
                        simpa [truthy] using hti
                      subst hxs
                      simp [searchParse, request, specSearchAddress,
                        truthy_jobj, hne, JVal.get, JVal.getItem,
                        optTruthy_none, optTruthy_some, hsucc, hd, htd,
                        hit, hti]
                    | jnull =>
                      simp [searchParse, request, specSearchAddress,
                        truthy_jobj, hne, JVal.get, JVal.getItem,
                        optTruthy_none, optTruthy_some, hsucc, hd, htd,
                        hit, hti]
                    | jbool b =>
                      simp [searchParse, request, specSearchAddress,
                        truthy_jobj, hne, JVal.get, JVal.getItem,
                        optTruthy_none, optTruthy_some, hsucc, hd, htd,
                        hit, hti]
                    | jnum n =>
                      simp [searchParse, request, specSearchAddress,
                        truthy_jobj, hne, JVal.get, JVal.getItem,
                        optTruthy_none, optTruthy_some, hsucc, hd, htd,
                        hit, hti]
                    | jstr s =>
                      simp [searchParse, request, specSearchAddress,
                        truthy_jobj, hne, JVal.get, JVal.getItem,
                        optTruthy_none, optTruthy_some, hsucc, hd, htd,
                        hit, hti]
                    | jobj gs =>
                      simp [searchParse, request, specSearchAddress,
                        truthy_jobj, hne, JVal.get, JVal.getItem,
                        optTruthy_none, optTruthy_some, hsucc, hd, htd,
                        hit, hti]
              | jnull => simp [truthy] at htd
              | jbool b => simp at hsafe
              | jnum n => simp at hsafe
              | jstr s => simp at hsafe
              | jarr xs => simp at hsafe
            · rw [Bool.not_eq_true] at htd
              cases d with
              | jobj ds =>
                have hds : ds = [] := by
                  simpa [truthy_jobj] using htd
                subst hds
                simp [searchParse, request, specSearchAddress, truthy_jobj,
                  hne, JVal.get, optTruthy_none, optTruthy_some, hsucc,
                  hd, htd, lookup_nil]
              | jnull =>
                simp [searchParse, request, specSearchAddress, truthy_jobj,
                  hne, JVal.get, optTruthy_none, optTruthy_some, hsucc,
                  hd, htd]
              | jbool b =>
                simp [searchParse, request, specSearchAddress, truthy_jobj,
                  hne, JVal.get, optTruthy_none, optTruthy_some, hsucc,
                  hd, htd]
              | jnum n =>
                simp [searchParse, request, specSearchAddress, truthy_jobj,
                  hne, JVal.get, optTruthy_none, optTruthy_some, hsucc,
                  hd, htd]
              | jstr s =>
                simp [searchParse, request, specSearchAddress, truthy_jobj,
                  hne, JVal.get, optTruthy_none, optTruthy_some, hsucc,
                  hd, htd]
              | jarr xs =>
                simp [searchParse, request, specSearchAddress, truthy_jobj,
                  hne, JVal.get, optTruthy_none, optTruthy_some, hsucc,
                  hd, htd]
        · rw [Bool.not_eq_true] at hsucc
          simp [searchParse, request, specSearchAddress, truthy_jobj, hne,
            JVal.get, optTruthy_none, optTruthy_some, hsucc]

theorem core_none_of_requiredCheck_false (a : String) (p o s h : ReqOutcome)
    (hchk : requiredCheck p o = .ok false) :
    get_core_token_info true a p o s h = .ok none := by
  simp [get_core_token_info, hchk, ebind_ok, epure]

theorem core_lookup_base (a : String) (p o s h : ReqOutcome)
    (hp : requiredGood p = true) (ho : requiredGood o = true)
    (hsec : callSafe s = true) (hhol : holdersSafe h = true)
    (k : String) (v : JVal)
    (hbk : lookup (baseList a (objFields (dataOf p))
        (objFields (dataOf o))) k = some v) :
    profLookup (get_core_token_info true a p o s h) k = some v := by
  obtain ⟨pre, hpreTop, hpreBase, hfe, hfg⟩ := core_cases a p o s h hp ho hsec
  have hpk := hpreBase k v hbk
  rcases holdersSafe_cases h hhol with hhe | ⟨hs, hg⟩
  · rw [hfe hhe]
    simpa [profLookup] using hpk
  · rw [hfg hs hg]
    simp [profLookup, lookup_append, hpk]

theorem resolve_trace_empty_map (q : String) (r : ReqOutcome) :
    (get_contract_address [] true r q).2 = [(pyLower q, "solana")] := by
  cases hsp : searchParse (request r) with
  | ok v => simp [get_contract_address, findLocal, search_token, hsp]
  | error e => simp [get_contract_address, findLocal, search_token, hsp]

/-! Concrete provider responses used by witnesses and counterexamples. -/

def exPrice : ReqOutcome :=
  .body (.jobj [("success", .jbool true),
    ("data", .jobj [("value", .jnum 42)])])

def exOverviewData : JVal :=
  .jobj [("name", .jstr "Tok"),
    ("links", .jobj [("website", .jstr ""), ("twitter", .jstr "tw")]),
    ("website", .jstr "https://top.example")]

def exOverview : ReqOutcome :=
  .body (.jobj [("success", .jbool true), ("data", exOverviewData)])

def exHolderList : List JVal :=
  [.jobj [("owner", .jstr "h1"), ("percentage", .jnum 30)],
   .jobj [("owner", .jstr "h2"), ("percentage", .jnum 20)],
   .jobj [("owner", .jstr "h3"), ("percentage", .jnum 15)],
   .jobj [("owner", .jstr "h4"), ("percentage", .jnum 10)],
   .jobj [("owner", .jstr "h5"), ("percentage", .jnum 5)],
   .jobj [("owner", .jstr "h6"), ("percentage", .jnum 3)],
   .jobj [("owner", .jstr "h7"), ("percentage", .jnum 2)]]

def exHolders : ReqOutcome :=
  .body (.jobj [("success", .jbool true),
    ("data", .jobj [("holders", .jarr exHolderList)])])

def exHoldersNoList : ReqOutcome :=
  .body (.jobj [("success", .jbool true),
    ("data", .jobj [("total", .jnum 9)])])

def exSearchOk : ReqOutcome :=
  .body (.jobj [("success", .jbool true),
    ("data", .jobj [("items", .jarr [.jobj [("address", .jstr "addrX")]])])])

def exSearchEmptyAddr : ReqOutcome :=
  .body (.jobj [("success", .jbool true),
    ("data", .jobj [("items", .jarr [.jobj [("address", .jstr "")]])])])

/-! The claims. -/

/-- C1: for every contract address, whenever the price envelope check
evaluates falsy, or it evaluates truthy and the overview envelope
check evaluates falsy (the call failed, reported non-success, or
carried an empty/absent data section), `get_core_token_info` returns
`None` — for all combinations of the security and holders calls'
outcomes. -/
theorem claim_C1_required_failure_returns_none (a : String)
    (p o s h : ReqOutcome)
    (hbad : checkEnvelope p = .ok false ∨
      (checkEnvelope p = .ok true ∧ checkEnvelope o = .ok false)) :
    get_core_token_info true a p o s h = .ok none := by
  have hchk : requiredCheck p o = .ok false := by
    rcases hbad with hp | ⟨hp, ho⟩
    · simp [requiredCheck, hp, ebind_ok, epure]
    · simp [requiredCheck, hp, ho, ebind_ok, epure]
  exact core_none_of_requiredCheck_false a p o s h hchk

/-- Witness for C1 at a concrete input: price call fails, overview
succeeds, security and holders arbitrary. -/
theorem claim_C1_witness :
    (checkEnvelope .fail = .ok false ∨
      (checkEnvelope .fail = .ok true ∧
        checkEnvelope exOverview = .ok false)) ∧
    get_core_token_info true "mint1" .fail exOverview exHolders exHolders =
      .ok none :=
  ⟨Or.inl rfl,
    claim_C1_required_failure_returns_none "mint1" .fail exOverview
      exHolders exHolders (Or.inl rfl)⟩

/-- C2: a query matching some key of the local override table under
case-insensitive comparison resolves to the first matching entry's
address, in table iteration order, with no remote search call
issued. -/
theorem claim_C2_local_override_precedence (m : List (String × JVal))
    (r : ReqOutcome) (q : String) (a : JVal)
    (hfind : findLocal m (pyLower q) = some a) :
    get_contract_address m true r q = (.ok (some a), []) := by
  simp [get_contract_address, hfind]

/-- Witness for C2: table {"DOGE": "addr1"}, query "DoGe". -/
theorem claim_C2_witness :
    findLocal [("DOGE", JVal.jstr "addr1")] (pyLower "DoGe") =
      some (.jstr "addr1") ∧
    get_contract_address [("DOGE", JVal.jstr "addr1")] true .fail "DoGe" =
      (.ok (some (.jstr "addr1")), []) :=
  ⟨rfl, claim_C2_local_override_precedence _ .fail "DoGe" _ rfl⟩

/-- C3 counterexample: a successful search response whose first item
carries the address field `""`.  The claim predicts that this address
field is returned, but the resolver returns `None` (the final
truthiness guard `if address_from_api:` treats the empty string as
absent). -/
theorem claim_C3_counterexample :
    specSearchAddress exSearchEmptyAddr = some (.jstr "") ∧
    get_contract_address [] true exSearchEmptyAddr "foo" =
      (.ok none, [("foo", "solana")]) ∧
    some (JVal.jstr "") ≠ (none : Option JVal) :=
  ⟨rfl, rfl, by simp⟩

/-- C3 (amended): for a query matching no local entry and a
well-shaped search response, exactly one remote search call is issued
with the lowercased query, and the resolver returns the first item's
address field when that field holds a truthy value, `None` on
failure, empty result set, missing fields, or a falsy address
value. -/
theorem claim_C3_remote_search (m : List (String × JVal)) (r : ReqOutcome)
    (q : String) (hloc : findLocal m (pyLower q) = none)
    (hsafe : searchSafe r = true) :
    get_contract_address m true r q =
      (.ok (match specSearchAddress r with
            | some a => if truthy a then some a else none
            | none => none),
       [(pyLower q, "solana")]) := by
  simp only [get_contract_address, hloc, search_token,
    searchParse_safe r hsafe]
  cases hsp : specSearchAddress r with
  | none => simp [optTruthy_none]
  | some a =>
    simp only [optTruthy_some]
    by_cases hta : truthy a = true
    · simp [hta]
    · rw [Bool.not_eq_true] at hta
      simp [hta]

/-- Witness for C3 at a concrete input: empty table, query "Foo",
search returns one item with address "addrX". -/
theorem claim_C3_witness :
    findLocal [] (pyLower "Foo") = none ∧ searchSafe exSearchOk = true ∧
    get_contract_address [] true exSearchOk "Foo" =
      (.ok (some (.jstr "addrX")), [("foo", "solana")]) :=
  ⟨rfl, rfl, claim_C3_remote_search [] exSearchOk "Foo" rfl rfl⟩

/-- C4: when the required calls succeed (and the security response is
well shaped), a successful well-shaped holders response with holder
list `hs` yields a profile whose `topHolders` entry is exactly the
first five entries of `hs` in provider order, each projected to
address/percentage; and when the holders call fails the `topHolders`
key is entirely absent from the profile. -/
theorem claim_C4_holder_summary (a : String) (p o s h : ReqOutcome)
    (hs : List JVal) (hp : requiredGood p = true)
    (ho : requiredGood o = true) (hsec : callSafe s = true) :
    (goodHolders h = some hs →
      profLookup (get_core_token_info true a p o s h) "topHolders" =
        some (.jarr ((hs.take 5).map projectHolderSpec))) ∧
    (h = .fail →
      isOkProfile (get_core_token_info true a p o s h) = true ∧
      profLookup (get_core_token_info true a p o s h) "topHolders" =
        none) := by
  obtain ⟨pre, hpreTop, hpreBase, hfe, hfg⟩ := core_cases a p o s h hp ho hsec
  constructor
  · intro hg
    rw [hfg hs hg]
    simp [profLookup, lookup_append, hpreTop, lookup_cons, lookup_nil]
  · rintro rfl
    rw [hfe rfl]
    exact ⟨rfl, by simpa [profLookup] using hpreTop⟩

/-- Witness for C4: required calls succeed, security fails, holders
succeed with seven entries; the profile keeps the first five. -/
theorem claim_C4_witness :
    requiredGood exPrice = true ∧ requiredGood exOverview = true ∧
    callSafe .fail = true ∧ goodHolders exHolders = some exHolderList ∧
    profLookup (get_core_token_info true "mint2" exPrice exOverview .fail
        exHolders) "topHolders" =
      some (.jarr ((exHolderList.take 5).map projectHolderSpec)) :=
  ⟨rfl, rfl, rfl, rfl,
    (claim_C4_holder_summary "mint2" exPrice exOverview .fail exHolders
      exHolderList rfl rfl rfl).1 rfl⟩

/-- C5 counterexample: the overview payload carries a present but
empty-string website value under the links sub-section and a distinct
top-level website value.  The claim predicts the links value, but the
profile stores the top-level one (the Python `or` skips any falsy
links value, not only absent ones). -/
theorem claim_C5_counterexample :
    get_nested exOverviewData ["links", "website"] = some (.jstr "") ∧
    profLookup (get_core_token_info true "mint3" exPrice exOverview .fail
        .fail) "website" = some (.jstr "https://top.example") ∧
    JVal.jstr "https://top.example" ≠ JVal.jstr "" :=
  ⟨rfl, rfl, by intro hcontra; exact absurd (JVal.jstr.inj hcontra) (by decide)⟩

/-- C5 (amended): when the required calls succeed (and the optional
responses are well shaped), the profile's website field is the links
sub-section value when that value is truthy, otherwise the top-level
website field; twitter and telegram are taken from the links
sub-section only. -/
theorem claim_C5_links_fields (a : String) (p o s h : ReqOutcome)
    (hp : requiredGood p = true) (ho : requiredGood o = true)
    (hsec : callSafe s = true) (hhol : holdersSafe h = true) :
    profLookup (get_core_token_info true a p o s h) "website" =
      some (pyNoneOr (websitePick (dataOf o))) ∧
    profLookup (get_core_token_info true a p o s h) "twitter" =
      some (pyNoneOr (get_nested (dataOf o) ["links", "twitter"])) ∧
    profLookup (get_core_token_info true a p o s h) "telegram" =
      some (pyNoneOr (get_nested (dataOf o) ["links", "telegram"])) := by
  obtain ⟨_, _, hoo, _⟩ := requiredGood_spec o ho
  obtain ⟨ofs, hofs⟩ := isObj_exists _ hoo
  refine ⟨?_, ?_, ?_⟩ <;>
    · apply core_lookup_base a p o s h hp ho hsec hhol
      rw [hofs]
      simp [objFields, baseList_lookup_website, baseList_lookup_twitter,
        baseList_lookup_telegram]

/-- Witness for C5 at a concrete input (truthy twitter under links,
falsy links website falling back to the top-level field). -/
theorem claim_C5_witness :
    requiredGood exPrice = true ∧ requiredGood exOverview = true ∧
    profLookup (get_core_token_info true "mint4" exPrice exOverview .fail
        .fail) "website" = some (pyNoneOr (websitePick (dataOf exOverview))) :=
  ⟨rfl, rfl,
    (claim_C5_links_fields "mint4" exPrice exOverview .fail .fail rfl rfl
      rfl rfl).1⟩

/-- C6 counterexample: response bodies whose top level is valid JSON
but not an object (a number for search, a non-empty list for price)
make the resolver and the aggregator raise an `AttributeError`
(calling `.get` on a non-dict), so the claimed no-exception guarantee
fails as stated for arbitrary bodies. -/
theorem claim_C6_counterexample :
    (get_contract_address [] true (.body (.jnum 1)) "foo").1 =
      .error .attributeError ∧
    get_core_token_info true "mint5" (.body (.jarr [.jnull])) .fail .fail
      .fail = .error .attributeError :=
  ⟨rfl, rfl⟩

/-- C6 (amended): for all queries, addresses and outcomes whose bodies
are well shaped (top-level JSON object with object-shaped payload
sections, or any falsy/failed body), the resolver and the aggregator
terminate with a result value and never raise. -/
theorem claim_C6_no_unhandled_exception (m : List (String × JVal))
    (q a : String) (r p o s h : ReqOutcome)
    (hr : searchSafe r = true) (hp : callSafe p = true)
    (ho : callSafe o = true) (hsec : callSafe s = true)
    (hhol : holdersSafe h = true) :
    isOk (get_contract_address m true r q).1 = true ∧
    isOk (get_core_token_info true a p o s h) = true := by
  constructor
  · cases hloc : findLocal m (pyLower q) with
    | some addr => simp [get_contract_address, hloc, isOk]
    | none =>
      simp only [get_contract_address, hloc, search_token,
        searchParse_safe r hr]
      cases hsp : specSearchAddress r with
      | none => simp [optTruthy_none, isOk]
      | some av =>
        by_cases hta : truthy av = true
        · simp [optTruthy_some, hta, isOk]
        · rw [Bool.not_eq_true] at hta
          simp [optTruthy_some, hta, isOk]
  · rcases callSafe_cases p hp with hpe | ⟨hpe, hpg⟩
    · rw [core_none_of_requiredCheck_false a p o s h
        (by simp [requiredCheck, hpe, ebind_ok, epure])]
      rfl
    · rcases callSafe_cases o ho with hoe | ⟨hoe, hog⟩
      · rw [core_none_of_requiredCheck_false a p o s h
          (by simp [requiredCheck, hpe, hoe, ebind_ok, epure])]
        rfl
      · obtain ⟨pre, _, _, hfe, hfg⟩ := core_cases a p o s h hpg hog hsec
        rcases holdersSafe_cases h hhol with hhe | ⟨hs, hg⟩
        · rw [hfe hhe]; rfl
        · rw [hfg hs hg]; rfl

/-- Witness for C6: all four aggregator calls fail and the search call
fails; both operations still return result values. -/
theorem claim_C6_witness :
    searchSafe .fail = true ∧ callSafe .fail = true ∧
    holdersSafe .fail = true ∧
    isOk (get_contract_address [] true .fail "foo").1 = true ∧
    isOk (get_core_token_info true "mint6" .fail .fail .fail .fail) =
      true :=
  ⟨rfl, rfl, rfl,
    (claim_C6_no_unhandled_exception [] "foo" "mint6" .fail .fail .fail
      .fail .fail rfl rfl rfl rfl rfl).1,
    (claim_C6_no_unhandled_exception [] "foo" "mint6" .fail .fail .fail
      .fail .fail rfl rfl rfl rfl rfl).2⟩

/-- C7: a missing or unparseable override file still yields a mapper
with an empty table (construction succeeds), and every lookup then
falls through to exactly one remote search call with the lowercased
query. -/
theorem claim_C7_tolerant_load :
    load_local_map .missingFile = [] ∧ load_local_map .malformed = [] ∧
    ∀ (q : String) (r : ReqOutcome),
      (get_contract_address (load_local_map .missingFile) true r q).2 =
        [(pyLower q, "solana")] ∧
      (get_contract_address (load_local_map .malformed) true r q).2 =
        [(pyLower q, "solana")] :=
  ⟨rfl, rfl, fun q r =>
    ⟨resolve_trace_empty_map q r, resolve_trace_empty_map q r⟩⟩

/-- C8: `get_core_token_info` is a pure function of the contract
address and the four provider responses, so two invocations with the
same address and the same responses yield identical profiles. -/
theorem claim_C8_deterministic (hc : Bool) (a : String)
    (p o s h : ReqOutcome)
    (r1 r2 : Except PyErr (Option (List (String × JVal))))
    (h1 : r1 = get_core_token_info hc a p o s h)
    (h2 : r2 = get_core_token_info hc a p o s h) : r1 = r2 :=
  h1.trans h2.symm

/-- Witness for C8 at a concrete input. -/
theorem claim_C8_witness :
    get_core_token_info true "mint7" exPrice exOverview .fail exHolders =
      get_core_token_info true "mint7" exPrice exOverview .fail exHolders :=
  claim_C8_deterministic true "mint7" exPrice exOverview .fail exHolders
    _ _ rfl rfl

/-- C9: when the required calls succeed (and the optional responses
are well shaped), the profile exists and its `topHolders` key is
present exactly when the holders envelope check is truthy; a
non-empty data mapping with no holder entries yields the key with an
empty list, so key presence distinguishes fetched-but-empty from
not-fetched. -/
theorem claim_C9_topHolders_presence (a : String) (p o s h : ReqOutcome)
    (hp : requiredGood p = true) (ho : requiredGood o = true)
    (hsec : callSafe s = true) (hhol : holdersSafe h = true) :
    isOkProfile (get_core_token_info true a p o s h) = true ∧
    ((profLookup (get_core_token_info true a p o s h)
        "topHolders").isSome = true ↔ checkEnvelope h = .ok true) ∧
    (goodHolders h = some [] →
      profLookup (get_core_token_info true a p o s h) "topHolders" =
        some (.jarr [])) := by
  obtain ⟨pre, hpreTop, hpreBase, hfe, hfg⟩ := core_cases a p o s h hp ho hsec
  rcases holdersSafe_cases h hhol with hhe | ⟨hs, hg⟩
  · rw [hfe hhe]
    refine ⟨rfl, ?_, ?_⟩
    · simp [profLookup, hpreTop, hhe]
    · intro hg0
      obtain ⟨henv, _⟩ := goodHolders_spec h [] hg0
      rw [henv] at hhe
      simp at hhe
  · obtain ⟨henv, _⟩ := goodHolders_spec h hs hg
    rw [hfg hs hg]
    refine ⟨rfl, ?_, ?_⟩
    · simp [profLookup, lookup_append, hpreTop, lookup_cons, lookup_nil,
        henv]
    · intro hg0
      rw [hg] at hg0
      obtain rfl : hs = [] := by simpa using hg0
      simp [profLookup, lookup_append, hpreTop, lookup_cons, lookup_nil]

/-- Witness for C9: holders succeed with a populated data mapping that
has no holder list; the profile carries `topHolders` as an empty
list. -/
theorem claim_C9_witness :
    requiredGood exPrice = true ∧ holdersSafe exHoldersNoList = true ∧
    goodHolders exHoldersNoList = some [] ∧
    profLookup (get_core_token_info true "mint8" exPrice exOverview .fail
        exHoldersNoList) "topHolders" = some (.jarr []) :=
  ⟨rfl, rfl, rfl,
    (claim_C9_topHolders_presence "mint8" exPrice exOverview .fail
      exHoldersNoList rfl rfl rfl rfl).2.2 rfl⟩

/-- C10: for a falsy api_key argument (absent or the empty string) the
credential used is the environment value when set, otherwise the
placeholder sentinel, which triggers the startup warning; an
explicitly passed empty string is never kept as the credential. -/
theorem claim_C10_credential_fallback : ∀ envKey : Option String,
    init_api_key none envKey = envKey.getD placeholder_key ∧
    init_api_key (some "") envKey = envKey.getD placeholder_key ∧
    placeholder_warning (init_api_key (some "") none) = true :=
  fun _ => ⟨rfl, rfl, rfl⟩

end Kovu
